import Mathlib

/-!
Verification development for the robot pick-and-place backend.

The Python source is embedded shallowly:

* `backend/perception/depth.py` (`get_depth_at_point`) becomes a pure function
  on an explicit depth frame; Python floats are modelled by `ℚ` (all arithmetic
  reached by the theorems below is exact in binary floating point, so the
  rational model is faithful), `int()` truncation by `pyInt`, `np.median` by
  `npMedian`.
* `backend/perception/stream.py` (`CameraManager.get_frame`) becomes a state
  transformer over a max-size-1 non-blocking output queue whose `tryGet`
  removes the delivered message (DepthAI queue semantics, also assumed by the
  source itself, e.g. the retry comment in `backend/ai/tools.py`).
* `backend/controls/robot_control.py` (`RobotController`) becomes a record of
  the controller's cached state; each `try`-guarded hardware effect takes an
  explicit `ok : Bool` telling whether the guarded body ran without raising.
* the tool layer of `backend/ai/tools.py` becomes functions returning a
  `PyValue` (a returned string or a propagated exception), the updated
  controller state and a trace of robot-facing events.  `find_object` is an
  external-model-driven component; the tool layer only inspects whether it
  returned an error dict or its formatted result string, which is modelled by
  the `FindOutcome` oracle.

Note `RobotController.get_pose` in the source is a plain synchronous method
returning a dict, while `_pickup_object_async` and `_get_robot_pose_async`
execute `await robot_controller.get_pose()`.  Awaiting a dict raises
`TypeError` in Python, so both code paths terminate exceptionally at that
statement; the embedding models this as a `PyValue.exn` result and the
(unreachable) remainder of those functions is therefore not reached in the
model either.
-/

namespace Spec2Proof

/-- Truncation of a rational toward zero, Python `int()` applied to a float. -/
def pyInt (q : ℚ) : ℤ := if 0 ≤ q then ⌊q⌋ else ⌈q⌉

/-- A depth frame: `height` x `width` grid of metric depth samples
(0 = invalid); `data r c` is the value at row `r`, column `c`
(`depth_frame[r, c]` in the source). -/
structure DepthFrame where
  height : ℕ
  width : ℕ
  data : ℕ → ℕ → ℕ

/-- Camera intrinsics as resolved inside the sampler (after the hard-coded
fallback defaults have been applied, lines 70-73 of depth.py). -/
structure Intrinsics where
  fx : ℚ
  fy : ℚ
  cx : ℚ
  cy : ℚ

/-- Clamp a pixel index into `[0, size-1]`: `max(0, min(size - 1, v))`. -/
def clampPixel (v : ℤ) (size : ℕ) : ℤ := max 0 (min ((size : ℤ) - 1) v)

/-- Pixel coordinate derived from a normalized coordinate:
`int(coord * size)` followed by the clamp (depth.py lines 40-45). -/
def pixelCoord (coord : ℚ) (size : ℕ) : ℤ :=
  clampPixel (pyInt (coord * (size : ℚ))) size

/-- Row-major list of the depth values in the square region around
`(px, py)` with half-width 5 (depth.py lines 52-58):
`depth_frame[max(0,py-5) : min(h,py+6), max(0,px-5) : min(w,px+6)]`.
Natural subtraction coincides with Python `max(0, . - 5)`. -/
def roiValues (f : DepthFrame) (px py : ℕ) : List ℕ :=
  let x1 := px - 5
  let x2 := min f.width (px + 6)
  let y1 := py - 5
  let y2 := min f.height (py + 6)
  (List.range' y1 (y2 - y1)).flatMap
    (fun r => (List.range' x1 (x2 - x1)).map (fun c => f.data r c))

/-- The nonzero samples of the region, `roi[roi > 0]` (depth.py line 59). -/
def validDepths (f : DepthFrame) (px py : ℕ) : List ℕ :=
  (roiValues f px py).filter (fun v => 0 < v)

/-- Exact value of `np.median` on a nonempty list of integer samples: sort,
then the middle element (odd length) or the mean of the two middle elements
(even length).  The float computation in the source is exact for 16-bit
inputs, so the rational value is faithful. -/
def npMedian (l : List ℕ) : ℚ :=
  let s := List.insertionSort (· ≤ ·) l
  if s.length % 2 = 1 then ((s.getD (s.length / 2) 0 : ℕ) : ℚ)
  else (((s.getD (s.length / 2 - 1) 0 : ℕ) : ℚ) + ((s.getD (s.length / 2) 0 : ℕ) : ℚ)) / 2

/-- Result of the depth sampler: an error dict (just its message) or the
returned integer coordinates in mm.  The best-effort color frame attached for
visualization carries no depth information and is not modelled. -/
inductive DepthResult
  | err (msg : String)
  | ok (x y z : ℤ)
deriving DecidableEq

/-- Core of `get_depth_at_point` (depth.py lines 36-94), given the depth frame
that was acquired and the resolved intrinsics.  The preceding lines (camera
running check, bounded frame-acquisition retry) are modelled by
`get_depth_at_point_entry` below. -/
def get_depth_at_point (f : DepthFrame) (intr : Intrinsics) (x y : ℚ) : DepthResult :=
  let pixel_x := pixelCoord x f.width
  let pixel_y := pixelCoord y f.height
  let px := pixel_x.toNat
  let py := pixel_y.toNat
  let z0 := f.data py px
  let z : ℚ :=
    if z0 = 0 then
      let valid := validDepths f px py
      if valid = [] then 0 else npMedian valid
    else (z0 : ℚ)
  if z = 0 then .err "Invalid depth (0) at point"
  else
    let x_mm := ((px : ℚ) - intr.cx) * z / intr.fx
    let y_mm := -((py : ℚ) - intr.cy) * z / intr.fy
    .ok (pyInt x_mm) (pyInt y_mm) (pyInt z)

/-- Entry of `get_depth_at_point` (depth.py lines 17-34): camera-not-running
check and the bounded retry loop for frame acquisition, whose outcome is the
`frame?` argument (`none` when all retries yielded no frame). -/
def get_depth_at_point_entry (running : Bool) (frame? : Option DepthFrame)
    (intr : Intrinsics) (x y : ℚ) : DepthResult :=
  if running = false then .err "Camera is not running"
  else
    match frame? with
    | none => .err "Could not get depth frame"
    | some f => get_depth_at_point f intr x y

/-- Concrete 11x11 depth frame used to exercise the window-median branch:
the centre pixel (5,5) is invalid (0) and the only nonzero samples in its
11x11 window are 2 at (5,4) and 3 at (5,6). -/
def frame11 : DepthFrame where
  height := 11
  width := 11
  data := fun r c => if r = 5 ∧ c = 4 then 2 else if r = 5 ∧ c = 6 then 3 else 0

/-- Concrete intrinsics with unit focal lengths and principal point at the
origin, making the pinhole projection arithmetic transparent. -/
def intr1 : Intrinsics := ⟨1, 1, 0, 0⟩

/-- A 3x3 depth frame whose samples are all invalid (0). -/
def frame0 : DepthFrame where
  height := 3
  width := 3
  data := fun _ _ => 0

lemma getD_mem {l : List ℕ} {n d : ℕ} (h : n < l.length) : l.getD n d ∈ l := by
  induction l generalizing n with
  | nil => simp at h
  | cons a t ih =>
    cases n with
    | zero => simp
    | succ m =>
      have hm : m < t.length := by simpa using h
      simp only [List.getD_cons_succ]
      exact List.mem_cons_of_mem _ (ih hm)

lemma npMedian_pos {l : List ℕ} (hne : l ≠ []) (hpos : ∀ a ∈ l, 0 < a) :
    0 < npMedian l := by
  unfold npMedian
  have hperm := List.perm_insertionSort (· ≤ ·) l
  have hlp : 0 < (List.insertionSort (· ≤ ·) l).length := by
    rw [hperm.length_eq]
    exact List.length_pos.mpr hne
  have hposs : ∀ a ∈ List.insertionSort (· ≤ ·) l, 0 < a :=
    fun a ha => hpos a (hperm.subset ha)
  set s := List.insertionSort (· ≤ ·) l with hs
  have h2 : s.length / 2 < s.length := Nat.div_lt_self hlp one_lt_two
  by_cases hpar : s.length % 2 = 1
  · rw [if_pos hpar]
    exact_mod_cast hposs _ (getD_mem h2)
  · rw [if_neg hpar]
    have h1 : s.length / 2 - 1 < s.length := lt_of_le_of_lt (Nat.sub_le _ _) h2
    have ha : (0 : ℚ) < (s.getD (s.length / 2 - 1) 0 : ℕ) := by
      exact_mod_cast hposs _ (getD_mem h1)
    have hb : (0 : ℚ) < (s.getD (s.length / 2) 0 : ℕ) := by
      exact_mod_cast hposs _ (getD_mem h2)
    exact div_pos (add_pos ha hb) two_pos

lemma validDepths_pos (f : DepthFrame) (px py : ℕ) :
    ∀ a ∈ validDepths f px py, 0 < a := by
  intro a ha
  simpa using (List.mem_filter.mp ha).2

/-- Evaluation of the sampler when the direct reading is invalid but the
window holds at least one nonzero sample: the result is built from the median
of the nonzero window samples. -/
lemma get_depth_at_point_median_eval (f : DepthFrame) (intr : Intrinsics)
    (x y : ℚ) (px py : ℕ)
    (hpx : pixelCoord x f.width = (px : ℤ))
    (hpy : pixelCoord y f.height = (py : ℤ))
    (hz0 : f.data py px = 0)
    (hval : validDepths f px py ≠ []) :
    get_depth_at_point f intr x y =
      .ok (pyInt (((px : ℚ) - intr.cx) * npMedian (validDepths f px py) / intr.fx))
          (pyInt (-((py : ℚ) - intr.cy) * npMedian (validDepths f px py) / intr.fy))
          (pyInt (npMedian (validDepths f px py))) := by
  have hmed : 0 < npMedian (validDepths f px py) :=
    npMedian_pos hval (validDepths_pos f px py)
  simp only [get_depth_at_point, hpx, hpy, Int.toNat_natCast]
  rw [hz0, if_pos rfl, if_neg hval, if_neg (ne_of_gt hmed)]

/-- C4 (amended): for a depth frame and a sampled pixel at least 5 pixels from
every border, if the direct depth is 0 and the 11x11 window around it has at
least one nonzero sample, `get_depth_at_point` returns success whose z is the
median of the nonzero window samples truncated to an integer (Python
`int(np.median(...))`), not an error. -/
theorem depth_window_median_truncated (f : DepthFrame) (intr : Intrinsics)
    (x y : ℚ) (px py : ℕ)
    (hpx : pixelCoord x f.width = (px : ℤ))
    (hpy : pixelCoord y f.height = (py : ℤ))
    (_hxm : 5 ≤ px) (_hxM : px + 6 ≤ f.width)
    (_hym : 5 ≤ py) (_hyM : py + 6 ≤ f.height)
    (hz0 : f.data py px = 0)
    (hval : validDepths f px py ≠ []) :
    get_depth_at_point f intr x y =
      .ok (pyInt (((px : ℚ) - intr.cx) * npMedian (validDepths f px py) / intr.fx))
          (pyInt (-((py : ℚ) - intr.cy) * npMedian (validDepths f px py) / intr.fy))
          (pyInt (npMedian (validDepths f px py))) :=
  get_depth_at_point_median_eval f intr x y px py hpx hpy hz0 hval

/-- Witness for C4 (amended) at the concrete 11x11 frame. -/
theorem depth_window_median_truncated_witness :
    get_depth_at_point frame11 intr1 (1/2) (1/2) =
      .ok (pyInt (((5 : ℕ) - intr1.cx) * npMedian (validDepths frame11 5 5) / intr1.fx))
          (pyInt (-(((5 : ℕ) : ℚ) - intr1.cy) * npMedian (validDepths frame11 5 5) / intr1.fy))
          (pyInt (npMedian (validDepths frame11 5 5))) :=
  depth_window_median_truncated frame11 intr1 (1/2) (1/2) 5 5
    (by norm_num [frame11, pixelCoord, clampPixel, pyInt])
    (by norm_num [frame11, pixelCoord, clampPixel, pyInt])
    (by norm_num) (by norm_num [frame11]) (by norm_num) (by norm_num [frame11])
    (by decide) (by decide)

/-- C4 (counterexample to the claim as stated): at the concrete frame the
nonzero window samples are 2 and 3, whose median is 5/2, yet the returned z
is 2 — the sampler returns the truncated median, not the median. -/
theorem depth_window_median_cex :
    get_depth_at_point frame11 intr1 (1/2) (1/2) = .ok 12 (-12) 2 ∧
    npMedian (validDepths frame11 5 5) = 5/2 ∧ ((2 : ℚ) ≠ 5/2) := by
  have h := get_depth_at_point_median_eval frame11 intr1 (1/2) (1/2) 5 5
    (by norm_num [frame11, pixelCoord, clampPixel, pyInt])
    (by norm_num [frame11, pixelCoord, clampPixel, pyInt])
    (by decide) (by decide)
  have hvd : validDepths frame11 5 5 = [2, 3] := by decide
  have hmed : npMedian [2, 3] = 5/2 := by
    norm_num [npMedian, List.insertionSort, List.orderedInsert]
  rw [h, hvd, hmed]
  refine ⟨?_, rfl, by norm_num⟩
  norm_num [intr1, pyInt, Int.ceil_neg]

/-- C5: if the direct depth at the derived pixel is 0 and every sample of the
surrounding clamped 11x11 window is 0, the sampler fails with the invalid
depth error and returns no coordinate. -/
theorem depth_all_zero_error (f : DepthFrame) (intr : Intrinsics) (x y : ℚ)
    (px py : ℕ)
    (hpx : pixelCoord x f.width = (px : ℤ))
    (hpy : pixelCoord y f.height = (py : ℤ))
    (hz0 : f.data py px = 0)
    (hall : ∀ v ∈ roiValues f px py, v = 0) :
    get_depth_at_point f intr x y = .err "Invalid depth (0) at point" := by
  have hval : validDepths f px py = [] := by
    unfold validDepths
    refine List.filter_eq_nil_iff.mpr fun a ha => ?_
    simp [hall a ha]
  simp only [get_depth_at_point, hpx, hpy, Int.toNat_natCast]
  rw [hz0, if_pos rfl, if_pos hval, if_pos rfl]

/-- Witness for C5 at the all-zero 3x3 frame. -/
theorem depth_all_zero_error_witness :
    get_depth_at_point frame0 intr1 0 0 = .err "Invalid depth (0) at point" :=
  depth_all_zero_error frame0 intr1 0 0 0 0
    (by norm_num [frame0, pixelCoord, clampPixel, pyInt])
    (by norm_num [frame0, pixelCoord, clampPixel, pyInt])
    (by decide) (by decide)

/-- C6: for every normalized input coordinate, including values outside
[0, 1], the derived pixel coordinate is clamped into the valid index range of
the depth frame before indexing. -/
theorem depth_pixel_clamped (x y : ℚ) (w h : ℕ) (hw : 1 ≤ w) (hh : 1 ≤ h) :
    0 ≤ pixelCoord x w ∧ pixelCoord x w < (w : ℤ) ∧
    0 ≤ pixelCoord y h ∧ pixelCoord y h < (h : ℤ) := by
  unfold pixelCoord clampPixel
  have hw' : (1 : ℤ) ≤ (w : ℤ) := by exact_mod_cast hw
  have hh' : (1 : ℤ) ≤ (h : ℤ) := by exact_mod_cast hh
  refine ⟨le_max_left _ _, ?_, le_max_left _ _, ?_⟩ <;> omega

/-- Witness for C6 with out-of-range inputs (x below 0, y above 1). -/
theorem depth_pixel_clamped_witness :
    0 ≤ pixelCoord (-(7/2)) 10 ∧ pixelCoord (-(7/2)) 10 < (10 : ℤ) ∧
    0 ≤ pixelCoord (9/4) 7 ∧ pixelCoord (9/4) 7 < (7 : ℤ) :=
  depth_pixel_clamped (-(7/2)) (9/4) 10 7 (by norm_num) (by norm_num)

/-! Frame Bus (backend/perception/stream.py).  A DepthAI output queue created
with `maxSize=1, blocking=False` holds at most one pending message; `tryGet`
is a non-blocking read that removes and returns the pending message, or
returns nothing.  Frames are abstracted by an identifier; `getCvFrame` is the
identity on that abstraction. -/

/-- Output queue with `maxSize=1, blocking=False`: at most one pending frame. -/
structure DaiOutputQueue where
  msg : Option ℕ
deriving DecidableEq

/-- Non-blocking `tryGet`: delivers and removes the pending message. -/
def DaiOutputQueue.tryGet (q : DaiOutputQueue) : Option ℕ × DaiOutputQueue :=
  (q.msg, ⟨none⟩)

/-- The slice of `CameraManager` state that `get_frame` touches. -/
structure CameraManager where
  running : Bool
  queue : Option DaiOutputQueue
deriving DecidableEq

/-- `CameraManager.get_frame` (stream.py lines 159-167): returns `None` when
the camera is not running or the queue is absent, otherwise performs the
non-blocking `tryGet` on the queue. -/
def CameraManager.get_frame (m : CameraManager) : Option ℕ × CameraManager :=
  match m.queue with
  | none => (none, m)
  | some q =>
    if m.running then
      let r := q.tryGet
      (r.1, { m with queue := some r.2 })
    else (none, m)

/-- C9 (counterexample to the claim as stated): with one frame pending and no
new arrival, the first read returns the frame and the second read returns no
data — consecutive reads do not return the same last frame, because `tryGet`
consumes the queued message. -/
theorem get_frame_cex :
    ((CameraManager.mk true (some ⟨some 7⟩)).get_frame).1 = some 7 ∧
    (((CameraManager.mk true (some ⟨some 7⟩)).get_frame).2.get_frame).1 = none ∧
    some 7 ≠ (none : Option ℕ) := by
  refine ⟨rfl, rfl, by simp⟩

/-- C9 (amended): reads are total non-blocking functions (never raise), and a
pending frame is delivered at most once — after any read, a further read with
no intervening arrival returns no data. -/
theorem get_frame_consumes (m : CameraManager) :
    (((m.get_frame).2).get_frame).1 = none := by
  rcases m with ⟨running, queue⟩
  rcases queue with _ | ⟨⟨msg⟩⟩ <;> cases running <;>
    simp [CameraManager.get_frame, DaiOutputQueue.tryGet]

/-! Motion Sequencer (backend/controls/robot_control.py).  Every hardware
effect in the source is wrapped in try/except; the `ok : Bool` argument of a
primitive tells whether the guarded body ran without raising (the simulated
bodies always succeed, but the except branches exist and the spec treats the
primitives as fallible).  On an exception the body is interrupted before the
state assignment, so the cached state is unchanged and the primitive returns
`False`. -/

structure Position where
  x : ℚ
  y : ℚ
  z : ℚ
deriving DecidableEq

structure Orientation where
  roll : ℚ
  pitch : ℚ
  yaw : ℚ
deriving DecidableEq

structure Pose where
  position : Position
  orientation : Orientation
deriving DecidableEq

/-- Cached state of `RobotController`: connection flag, cached pose and
gripper state string ("open", "closed" or "unknown"). -/
structure RobotController where
  is_connected : Bool
  current_pose : Pose
  gripper_state : String
deriving DecidableEq

/-- State produced by `RobotController.__init__`. -/
def initialController : RobotController :=
  ⟨false, ⟨⟨0, 0, 0⟩, ⟨0, 0, 0⟩⟩, "unknown"⟩

/-- The home pose: 30 cm above the origin (0.3 in the source's meters). -/
def home_pose : Pose := ⟨⟨0, 0, 3/10⟩, ⟨0, 0, 0⟩⟩

/-- `connect`: marks the controller connected and returns True when the body
runs; returns False (state unchanged) when it raises. -/
def RobotController.connect (st : RobotController) (ok : Bool) :
    RobotController × Bool :=
  if ok then ({ st with is_connected := true }, true) else (st, false)

/-- `get_pose`: a plain synchronous read returning (a copy of) the cached
pose.  Note this method is not asynchronous in the source. -/
def RobotController.get_pose (st : RobotController) : Pose :=
  st.current_pose

/-- The `target_pose` built by `move_to_pose`: requested position, with each
orientation component defaulting to the cached one when not supplied. -/
def mkTargetPose (st : RobotController) (x y z : ℚ)
    (roll pitch yaw : Option ℚ) : Pose where
  position := ⟨x, y, z⟩
  orientation :=
    { roll := roll.getD st.current_pose.orientation.roll
      pitch := pitch.getD st.current_pose.orientation.pitch
      yaw := yaw.getD st.current_pose.orientation.yaw }

/-- `move_to_pose`: returns False immediately when not connected; otherwise
stores the target pose in the cache and returns True, unless the guarded body
raised, in which case the cache is unchanged and it returns False. -/
def RobotController.move_to_pose (st : RobotController) (x y z : ℚ)
    (roll pitch yaw : Option ℚ) (ok : Bool) : RobotController × Bool :=
  if st.is_connected = false then (st, false)
  else if ok then
    ({ st with current_pose := mkTargetPose st x y z roll pitch yaw }, true)
  else (st, false)

/-- `go_home`: connection check, then `move_to_pose` at the home pose. -/
def RobotController.go_home (st : RobotController) (ok : Bool) :
    RobotController × Bool :=
  if st.is_connected = false then (st, false)
  else
    st.move_to_pose home_pose.position.x home_pose.position.y home_pose.position.z
      (some home_pose.orientation.roll) (some home_pose.orientation.pitch)
      (some home_pose.orientation.yaw) ok

/-- `open_gripper`: sets the cached gripper state to "open" on success. -/
def RobotController.open_gripper (st : RobotController) (ok : Bool) :
    RobotController × Bool :=
  if st.is_connected = false then (st, false)
  else if ok then ({ st with gripper_state := "open" }, true)
  else (st, false)

/-- `close_gripper`: sets the cached gripper state to "closed" on success. -/
def RobotController.close_gripper (st : RobotController) (ok : Bool) :
    RobotController × Bool :=
  if st.is_connected = false then (st, false)
  else if ok then ({ st with gripper_state := "closed" }, true)
  else (st, false)

/-! Tool layer (backend/ai/tools.py).  Each tool returns a Python value — a
string result or a propagated exception — together with the controller state
and the trace of robot-facing calls it performed. -/

/-- A value observed at the boundary of a tool call: a returned string or an
exception escaping the call. -/
inductive PyValue
  | str (s : String)
  | exn (msg : String)
deriving DecidableEq

/-- What `find_object` handed back to `_pickup_object_async`: a dict carrying
an error message, or its formatted result string.  `find_object` itself is
driven by external proposal/segmentation models, so the tool layer treats its
result as an oracle. -/
inductive FindOutcome
  | errorDict (msg : String)
  | formatted (s : String)
deriving DecidableEq

/-- Oracle for the fallible effects a single tool call can perform. -/
structure Env where
  connectOk : Bool
  openOk : Bool
  closeOk : Bool
  homeOk : Bool
  findObject : FindOutcome
deriving DecidableEq

/-- Robot-facing events a tool call emits, in order. -/
inductive REvent
  | connectCall (ok : Bool)
  | openGripperCall (ok : Bool)
  | closeGripperCall (ok : Bool)
  | goHomeCall (ok : Bool)
  | getPoseCall
  | findObjectCall
deriving DecidableEq

/-- Message of the TypeError raised by `await robot_controller.get_pose()`,
`get_pose` being a synchronous method returning a dict. -/
def awaitDictError : String :=
  "TypeError: object dict cannot be used in await expression"

/-- Outcome of the connection preamble shared verbatim by every tool. -/
inductive ConnectStep
  | failed (result : PyValue × RobotController × List REvent)
  | proceed (st : RobotController) (evs : List REvent)

/-- The preamble repeated at the top of every tool: if the controller is not
connected, attempt exactly one `connect()`; on failure return the tool's
connection error string, otherwise continue. -/
def ensureConnected (errMsg : String) (env : Env) (st : RobotController) :
    ConnectStep :=
  if st.is_connected = false then
    let r := st.connect env.connectOk
    if r.2 = false then .failed (.str errMsg, r.1, [.connectCall env.connectOk])
    else .proceed r.1 [.connectCall env.connectOk]
  else .proceed st []

/-- `open_gripper` tool (`_open_gripper_async`). -/
def openGripperTool (env : Env) (st : RobotController) :
    PyValue × RobotController × List REvent :=
  match ensureConnected "Error: Failed to connect to robot. Cannot open gripper." env st with
  | .failed r => r
  | .proceed st1 evs =>
    let r := st1.open_gripper env.openOk
    if r.2 then
      (.str ("✓ Gripper opened successfully. Current state: " ++ r.1.gripper_state),
        r.1, evs ++ [.openGripperCall env.openOk])
    else
      (.str "Error: Failed to open gripper. Check robot connection and hardware.",
        r.1, evs ++ [.openGripperCall env.openOk])

/-- `close_gripper` tool (`_close_gripper_async`). -/
def closeGripperTool (env : Env) (st : RobotController) :
    PyValue × RobotController × List REvent :=
  match ensureConnected "Error: Failed to connect to robot. Cannot close gripper." env st with
  | .failed r => r
  | .proceed st1 evs =>
    let r := st1.close_gripper env.closeOk
    if r.2 then
      (.str ("✓ Gripper closed successfully. Current state: " ++ r.1.gripper_state),
        r.1, evs ++ [.closeGripperCall env.closeOk])
    else
      (.str "Error: Failed to close gripper. Check robot connection and hardware.",
        r.1, evs ++ [.closeGripperCall env.closeOk])

/-- `go_home` tool (`_go_home_async`).  The source renders the position with
three decimals; the exact rationals are rendered here instead. -/
def goHomeTool (env : Env) (st : RobotController) :
    PyValue × RobotController × List REvent :=
  match ensureConnected "Error: Failed to connect to robot. Cannot move to home." env st with
  | .failed r => r
  | .proceed st1 evs =>
    let r := st1.go_home env.homeOk
    if r.2 then
      (.str ("✓ Robot moved to home position successfully. Current position: X=" ++
          toString r.1.current_pose.position.x ++ "m, Y=" ++
          toString r.1.current_pose.position.y ++ "m, Z=" ++
          toString r.1.current_pose.position.z ++ "m"),
        r.1, evs ++ [.goHomeCall env.homeOk])
    else
      (.str "Error: Failed to move to home position. Check robot connection and hardware.",
        r.1, evs ++ [.goHomeCall env.homeOk])

/-- `get_robot_pose` tool (`_get_robot_pose_async`): after the connection
preamble it executes `await robot_controller.get_pose()`; `get_pose` returns
a plain dict, so the await raises TypeError and the exception escapes the
tool.  (Had the await succeeded, the format string would still read the
nonexistent orientation key "r".) -/
def getRobotPoseTool (env : Env) (st : RobotController) :
    PyValue × RobotController × List REvent :=
  match ensureConnected "Error: Failed to connect to robot. Cannot get pose." env st with
  | .failed r => r
  | .proceed st1 evs => (.exn awaitDictError, st1, evs ++ [.getPoseCall])

/-- Error string returned when no coordinates were supplied (the source text
additionally contains a parenthesised example phrase, elided here). -/
def coordsUnavailableMsg : String :=
  "Error: Coordinates not available. Please ask me to find the object first, then I can use those coordinates to pick it up."

/-- `pickup_object` tool (`_pickup_object_async`).  With all three explicit
coordinates supplied the execution reaches
`current_pose = await robot_controller.get_pose()` and the await of the dict
raises TypeError, so the coordinate transform and the five-step sequence
(lines 633-673 of tools.py) are never reached.  Without all three
coordinates, `find_object` is called; a dict error is reported, and any other
result leads to the coordinates-not-available error — the pickup sequence is
never executed on the located coordinates. -/
def pickupObjectTool (env : Env) (st : RobotController)
    (object_description : String) (x_mm y_mm z_mm : Option ℚ) :
    PyValue × RobotController × List REvent :=
  match ensureConnected "Error: Failed to connect to robot. Cannot pick up object." env st with
  | .failed r => r
  | .proceed st1 evs =>
    match x_mm, y_mm, z_mm with
    | some _, some _, some _ => (.exn awaitDictError, st1, evs ++ [.getPoseCall])
    | _, _, _ =>
      match env.findObject with
      | .errorDict m =>
        (.str ("Error: Could not find " ++ object_description ++ ". " ++ m),
          st1, evs ++ [.findObjectCall])
      | .formatted _ => (.str coordsUnavailableMsg, st1, evs ++ [.findObjectCall])

/-- The tool operations that wrap robot primitives behind the shared
connection preamble. -/
inductive ToolOp
  | openGripperOp
  | closeGripperOp
  | goHomeOp
  | pickupObjectOp
  | getRobotPoseOp
deriving DecidableEq

/-- The per-tool connection failure message (the device-unavailable string of
each tool's preamble). -/
def connectErrorMessage : ToolOp → String
  | .openGripperOp => "Error: Failed to connect to robot. Cannot open gripper."
  | .closeGripperOp => "Error: Failed to connect to robot. Cannot close gripper."
  | .goHomeOp => "Error: Failed to connect to robot. Cannot move to home."
  | .pickupObjectOp => "Error: Failed to connect to robot. Cannot pick up object."
  | .getRobotPoseOp => "Error: Failed to connect to robot. Cannot get pose."

/-- Dispatch a tool operation (the coordinate arguments are used only by
`pickup_object`). -/
def runTool (op : ToolOp) (env : Env) (st : RobotController) (desc : String)
    (x_mm y_mm z_mm : Option ℚ) : PyValue × RobotController × List REvent :=
  match op with
  | .openGripperOp => openGripperTool env st
  | .closeGripperOp => closeGripperTool env st
  | .goHomeOp => goHomeTool env st
  | .pickupObjectOp => pickupObjectTool env st desc x_mm y_mm z_mm
  | .getRobotPoseOp => getRobotPoseTool env st

/-- Whether an event is a reconnect attempt. -/
def REvent.isConnect : REvent → Bool
  | .connectCall _ => true
  | _ => false

/-- Number of reconnect attempts in a trace. -/
def countConnect (evs : List REvent) : ℕ :=
  (evs.filter REvent.isConnect).length

/-- A connected controller caching the reference pose (100, 50, 200). -/
def ctrlRef : RobotController := ⟨true, ⟨⟨100, 50, 200⟩, ⟨0, 0, 0⟩⟩, "unknown"⟩

/-- A second connected controller, gripper open, cached pose (0, 0, 300). -/
def ctrlRef2 : RobotController := ⟨true, ⟨⟨0, 0, 300⟩, ⟨0, 0, 0⟩⟩, "open"⟩

/-- Oracle on which every hardware effect succeeds and the object is found. -/
def envAllOk : Env := ⟨true, true, true, true, .formatted "found"⟩

/-- C1: for every pick request supplying all three explicit camera-frame
coordinates while the robot is connected, execution raises TypeError at
`await robot_controller.get_pose()` (tools.py line 614) — before reading the
reference pose and before the approach/descend target of the claim can be
computed; the transform of lines 627-629 is dead code. -/
theorem pickup_explicit_crashes (env : Env) (st : RobotController)
    (desc : String) (x y z : ℚ) (hc : st.is_connected = true) :
    pickupObjectTool env st desc (some x) (some y) (some z) =
      (.exn awaitDictError, st, [.getPoseCall]) := by
  unfold pickupObjectTool ensureConnected
  rw [hc]
  simp

/-- Witness for C1 at the claim's own scenario: reference pose (100, 50, 200)
and explicit target (0, 0, 0). -/
theorem pickup_explicit_crashes_witness :
    pickupObjectTool envAllOk ctrlRef "target object" (some 0) (some 0) (some 0) =
      (.exn awaitDictError, ctrlRef, [.getPoseCall]) :=
  pickup_explicit_crashes envAllOk ctrlRef "target object" 0 0 0 rfl

/-- C2: `get_robot_pose` does not return a value — the built-in connect
succeeds, and then `await robot_controller.get_pose()` awaits a plain dict,
so a TypeError escapes the tool boundary. -/
theorem get_robot_pose_raises_typeerror :
    getRobotPoseTool envAllOk initialController =
      (.exn awaitDictError, { initialController with is_connected := true },
        [.connectCall true, .getPoseCall]) := rfl

/-- C3 (counterexample to the claim as stated): with no explicit coordinates
and `find_object` succeeding, `pickup_object` returns the
coordinates-not-available error and performs no motion or gripper step — it
does not execute the pickup sequence at the located coordinates. -/
theorem pickup_no_coords_cex :
    pickupObjectTool envAllOk ctrlRef "apple" none none none =
      (.str coordsUnavailableMsg, ctrlRef, [.findObjectCall]) := rfl

/-- C3 (amended): whenever the explicit coordinates are not all supplied and
the robot is connected, `pickup_object` delegates to `find_object` and then
returns an error — the find error if `find_object` reported one, otherwise
the coordinates-not-available error — without ever executing the pickup
sequence (its trace holds the single `find_object` call and the controller
state is unchanged). -/
theorem pickup_without_coords_never_picks (env : Env) (st : RobotController)
    (desc : String) (x_mm y_mm z_mm : Option ℚ)
    (hc : st.is_connected = true)
    (h : x_mm = none ∨ y_mm = none ∨ z_mm = none) :
    pickupObjectTool env st desc x_mm y_mm z_mm =
      ((match env.findObject with
        | .errorDict m => PyValue.str ("Error: Could not find " ++ desc ++ ". " ++ m)
        | .formatted _ => PyValue.str coordsUnavailableMsg),
       st, [REvent.findObjectCall]) := by
  unfold pickupObjectTool ensureConnected
  rw [hc]
  rcases x_mm with _ | a <;> rcases y_mm with _ | b <;> rcases z_mm with _ | c <;>
    (cases env.findObject <;> simp) <;>
      (rcases h with h | h | h <;> exact Option.noConfusion h)

/-- Witness for C3 (amended) with only the y coordinate supplied. -/
theorem pickup_without_coords_never_picks_witness :
    pickupObjectTool envAllOk ctrlRef2 "cup" none (some 5) none =
      (PyValue.str coordsUnavailableMsg, ctrlRef2, [REvent.findObjectCall]) :=
  pickup_without_coords_never_picks envAllOk ctrlRef2 "cup" none (some 5) none rfl
    (Or.inl rfl)

/-- C7: any tool wrapping a robot primitive, called while disconnected, makes
exactly one reconnect attempt, placed before any other robot-facing action;
if the reconnect fails the tool returns its device-unavailable error string
having performed nothing else, and if it succeeds the tool proceeds past the
preamble. -/
theorem primitive_single_reconnect (op : ToolOp) (env : Env)
    (st : RobotController) (desc : String) (x_mm y_mm z_mm : Option ℚ)
    (h : st.is_connected = false) :
    countConnect (runTool op env st desc x_mm y_mm z_mm).2.2 = 1 ∧
    (runTool op env st desc x_mm y_mm z_mm).2.2.head? =
      some (.connectCall env.connectOk) ∧
    (env.connectOk = false →
      (runTool op env st desc x_mm y_mm z_mm).2.2 = [.connectCall false] ∧
      (runTool op env st desc x_mm y_mm z_mm).1 = .str (connectErrorMessage op)) ∧
    (env.connectOk = true →
      2 ≤ (runTool op env st desc x_mm y_mm z_mm).2.2.length) := by
  obtain ⟨co, oo, cl, ho, fo⟩ := env
  cases op with
  | openGripperOp =>
    cases co <;> cases oo <;>
      simp [runTool, openGripperTool, ensureConnected, RobotController.connect,
        RobotController.open_gripper, countConnect, REvent.isConnect,
        connectErrorMessage, h]
  | closeGripperOp =>
    cases co <;> cases cl <;>
      simp [runTool, closeGripperTool, ensureConnected, RobotController.connect,
        RobotController.close_gripper, countConnect, REvent.isConnect,
        connectErrorMessage, h]
  | goHomeOp =>
    cases co <;> cases ho <;>
      simp [runTool, goHomeTool, ensureConnected, RobotController.connect,
        RobotController.go_home, RobotController.move_to_pose, countConnect,
        REvent.isConnect, connectErrorMessage, h]
  | pickupObjectOp =>
    cases co <;> cases fo <;>
      rcases x_mm with _ | a <;> rcases y_mm with _ | b <;> rcases z_mm with _ | c <;>
        simp [runTool, pickupObjectTool, ensureConnected, RobotController.connect,
          countConnect, REvent.isConnect, connectErrorMessage, h]
  | getRobotPoseOp =>
    cases co <;>
      simp [runTool, getRobotPoseTool, ensureConnected, RobotController.connect,
        countConnect, REvent.isConnect, connectErrorMessage, h]

/-- Witness for C7: the open-gripper tool from the initial (disconnected)
state with a succeeding reconnect. -/
theorem primitive_single_reconnect_witness :
    initialController.is_connected = false ∧
    (countConnect
        (runTool .openGripperOp envAllOk initialController "obj" none none none).2.2 = 1 ∧
      (runTool .openGripperOp envAllOk initialController "obj" none none none).2.2.head? =
        some (.connectCall envAllOk.connectOk) ∧
      (envAllOk.connectOk = false →
        (runTool .openGripperOp envAllOk initialController "obj" none none none).2.2 =
          [.connectCall false] ∧
        (runTool .openGripperOp envAllOk initialController "obj" none none none).1 =
          .str (connectErrorMessage .openGripperOp)) ∧
      (envAllOk.connectOk = true →
        2 ≤ (runTool .openGripperOp envAllOk initialController "obj" none none none).2.2.length)) :=
  ⟨rfl, primitive_single_reconnect .openGripperOp envAllOk initialController
    "obj" none none none rfl⟩

/-- C8: with explicit coordinates supplied and the robot connected, the pick
sequence never starts — execution raises TypeError at the awaited synchronous
`get_pose` before step 1 (open gripper), so no gripper or motion step appears
in the trace. -/
theorem pickup_sequence_never_starts :
    pickupObjectTool envAllOk ctrlRef2 "block" (some 10) (some 20) (some 30) =
      (.exn awaitDictError, ctrlRef2, [.getPoseCall]) := rfl

/-- C10: `move_to_pose` called while disconnected returns False and leaves
the cached state untouched; the gripper state is never touched by this
primitive; and the cached pose changes only when the move returns True, in
which case it is set to the requested target pose. -/
theorem move_to_pose_spec (st : RobotController) (x y z : ℚ)
    (roll pitch yaw : Option ℚ) (ok : Bool) :
    (st.is_connected = false →
      st.move_to_pose x y z roll pitch yaw ok = (st, false)) ∧
    ((st.move_to_pose x y z roll pitch yaw ok).1.gripper_state = st.gripper_state) ∧
    ((st.move_to_pose x y z roll pitch yaw ok).1.current_pose ≠ st.current_pose →
      (st.move_to_pose x y z roll pitch yaw ok).2 = true ∧
      (st.move_to_pose x y z roll pitch yaw ok).1.current_pose =
        mkTargetPose st x y z roll pitch yaw) := by
  unfold RobotController.move_to_pose
  cases hc : st.is_connected <;> cases ok <;> simp [hc]

/-- Witness for C10 at the initial (disconnected) controller. -/
theorem move_to_pose_spec_witness :
    (initialController.is_connected = false →
      initialController.move_to_pose 1 2 3 none none none true =
        (initialController, false)) ∧
    ((initialController.move_to_pose 1 2 3 none none none true).1.gripper_state =
      initialController.gripper_state) ∧
    ((initialController.move_to_pose 1 2 3 none none none true).1.current_pose ≠
        initialController.current_pose →
      (initialController.move_to_pose 1 2 3 none none none true).2 = true ∧
      (initialController.move_to_pose 1 2 3 none none none true).1.current_pose =
        mkTargetPose initialController 1 2 3 none none none) :=
  move_to_pose_spec initialController 1 2 3 none none none true

end Spec2Proof
